import Mathlib

/-!
Verification of the answer-resolution and quota-coordination pipeline of the
chat backend (`src/api/conversations.js`, chat endpoint, together with the
anonymous-conversation saving branch of the conversations endpoint).

The handler is embedded shallowly: the external collaborators (user store,
rate limiter decision, answer cache, provider) are supplied as an explicit
`World`; the handler is a pure function from a request and a world to a
response, an updated world and a trace of the cost-incurring events it
performed.  Helpers that live in `lib/db.js`, `lib/ratelimit.js` and
`lib/utils.js` (files not part of this repository snapshot) are modelled
from the specification and are marked as such in their doc comments.
-/

namespace SosChat

/-- An entry of the answer cache: the stored answer text and its hit counter. -/
structure CacheEntry where
  answer : String
  hitCount : Nat
deriving Repr, DecidableEq

/-- The answer cache, keyed by the normalized question text. -/
abbrev Cache := List (String × CacheEntry)

/-- JavaScript `s.trim()`: strip leading and trailing whitespace,
character-level. -/
def jsTrim (s : String) : String :=
  String.mk (((s.data.dropWhile Char.isWhitespace).reverse.dropWhile Char.isWhitespace).reverse)

/-- JavaScript `s.toLowerCase()`, character-level. -/
def jsToLower (s : String) : String :=
  String.mk (s.data.map Char.toLower)

/-- Modelled from the spec: the cache-key normalization used by
`getCachedAnswer` / `saveCachedAnswer` in `lib/db.js` (file missing from the
snapshot).  Spec 4.1: "trim and case-fold the question text before using it
as the lookup/store key". -/
def normalizeKey (q : String) : String :=
  jsToLower (jsTrim q)

/-- Association lookup in the cache by exact (already normalized) key. -/
def cacheFind : Cache → String → Option CacheEntry
  | [], _ => none
  | (k, e) :: rest, key => if k = key then some e else cacheFind rest key

/-- Increment the hit counter of the entry stored at `key` (if any). -/
def cacheBump : Cache → String → Cache
  | [], _ => []
  | (k, e) :: rest, key =>
      if k = key then (k, { e with hitCount := e.hitCount + 1 }) :: rest
      else (k, e) :: cacheBump rest key

/-- Insert or replace the entry stored at `key`. -/
def cacheInsert : Cache → String → CacheEntry → Cache
  | [], key, e => [(key, e)]
  | (k, e0) :: rest, key, e =>
      if k = key then (key, e) :: rest
      else (k, e0) :: cacheInsert rest key e

/-- Modelled from the spec: `getCachedAnswer` in `lib/db.js` (file missing
from the snapshot).  Looks the question up under its normalized key; on a hit
it returns the stored entry and increments that entry's hit counter (spec 4.1:
"On hit, the hit counter is incremented as an observable side effect; the
returned answer is immutable"). -/
def getCachedAnswer (c : Cache) (question : String) : Option CacheEntry × Cache :=
  let key := normalizeKey question
  match cacheFind c key with
  | some e => (some e, cacheBump c key)
  | none => (none, c)

/-- Modelled from the spec: `saveCachedAnswer` in `lib/db.js` (file missing
from the snapshot).  Stores the answer under the normalized key of the
question, with a fresh hit counter (spec 3: "created on first miss"). -/
def saveCachedAnswer (c : Cache) (question answer : String) : Cache :=
  cacheInsert c (normalizeKey question) { answer := answer, hitCount := 0 }

/-- A user row, as far as the pipeline needs it. -/
structure User where
  id : Nat
deriving Repr, DecidableEq

/-- Modelled from the spec: `findUserByEmail` in `lib/db.js` (file missing
from the snapshot) — a lookup of the user by account email. -/
def findUserByEmail (users : List (String × User)) (email : String) : Option User :=
  match users with
  | [] => none
  | (e, u) :: rest => if e = email then some u else findUserByEmail rest email

/-- The decision produced by `checkRateLimit`: success flag plus the usage
numbers (limit, remaining budget, reset time). -/
structure RateLimitResult where
  success : Bool
  limit : Nat
  remaining : Nat
  reset : Nat
deriving Repr, DecidableEq

/-- The outcome of the provider (OpenAI) call, as observed by the handler:
HTTP `ok` flag and status, the optional answer body
(`choices[0]?.message?.content`), and the reported token usage. -/
structure ProviderResult where
  ok : Bool
  status : Nat
  content : Option String
  totalTokens : Nat
deriving Repr, DecidableEq

/-- A stored conversation session (row of `conversation_sessions`). -/
structure SessionRec where
  id : Nat
  userId : Nat
  title : String
deriving Repr, DecidableEq

/-- A stored conversation message (row of `conversation_messages`). -/
structure MessageRec where
  sessionId : Nat
  role : String
  content : String
  tokensUsed : Nat
  responseTimeMs : Option Nat
  wasCached : Bool
deriving Repr, DecidableEq

/-- The external world the handler interacts with: the user store, the two
rate-limiter tiers' decisions for this request, provider configuration and
outcome, the answer cache, the conversation store, and the failure switches
for each fallible recording step. -/
structure World where
  users : List (String × User)
  userLookupFails : Bool
  rateAnon : RateLimitResult
  rateReg : RateLimitResult
  apiKeyPresent : Bool
  cache : Cache
  provider : ProviderResult
  createSessionFails : Bool
  addUserMsgFails : Bool
  addAssistantMsgFails : Bool
  nextSessionId : Nat
  responseTimeMs : Nat
  sessions : List SessionRec
  messages : List MessageRec
deriving Repr, DecidableEq

/-- An incoming request to the chat endpoint: HTTP method, body fields, and
the three cookies the handler reads.  `qUsedCookie` is the parsed numeric
value of the `q_used` cookie (`parseInt(cookies.q_used || '0')` defaults the
absent cookie to 0). -/
structure ChatRequest where
  method : String
  message : String
  sessionId : Option Nat
  qUsedCookie : Option Nat
  registeredCookie : Option String
  userEmailCookie : Option String
deriving Repr, DecidableEq

/-- `remaining` in the response body is either a number or the string
"illimité" for registered callers. -/
inductive Remaining where
  | unlimited
  | count (n : Nat)
deriving Repr, DecidableEq

/-- The observable response: HTTP status, the JSON body fields actually set
by the responding site (absent fields are `none`), the rate-limit usage
headers, and the `q_used` Set-Cookie value (if any). -/
structure Resp where
  status : Nat
  success : Option Bool := none
  needSignup : Option Bool := none
  error : Option String := none
  message : Option String := none
  response : Option String := none
  qUsed : Option Nat := none
  remaining : Option Remaining := none
  cached : Option Bool := none
  sessionId : Option Nat := none
  headerLimit : Option Nat := none
  headerRemaining : Option Nat := none
  headerReset : Option Nat := none
  cookieQUsed : Option Nat := none
deriving Repr, DecidableEq

/-- The cost-incurring (or state-changing) events of a request, in the order
the handler performs them. -/
inductive Event where
  | rateCheck
  | quotaGate
  | cacheLookup
  | providerCall
  | cacheStore
  | sessionCreate
  | messageAppend
  | cookieSet
deriving Repr, DecidableEq

/-- The full outcome of one request: response, final world, event trace. -/
structure HandlerOut where
  resp : Resp
  world : World
  events : List Event
deriving Repr, DecidableEq

/-- JavaScript truthiness of an optional cookie string: present and
non-empty. -/
def strTruthy : Option String → Bool
  | some s => !(s == "")
  | none => false

/-- The rate limiter tier chosen by the handler:
`registered ? chatRateLimiterRegistered : chatRateLimiter`. -/
def limiterFor (req : ChatRequest) (w : World) : RateLimitResult :=
  if req.registeredCookie = some "1" then w.rateReg else w.rateAnon

/-- Modelled from the spec: `addRateLimitHeaders` in `lib/ratelimit.js`
(file missing from the snapshot) — attaches the usage headers (limit,
remaining, reset) of the admission decision to the response (spec 4.2). -/
def addRateLimitHeaders (r : Resp) (rl : RateLimitResult) : Resp :=
  { r with headerLimit := some rl.limit, headerRemaining := some rl.remaining,
           headerReset := some rl.reset }

/-- Modelled from the spec: `sendRateLimitError` in `lib/ratelimit.js` (file
missing from the snapshot) — a denial payload carrying limit / remaining /
reset at a client-error status distinct from quota exhaustion (spec 4.2, 6). -/
def sendRateLimitError (rl : RateLimitResult) : Resp :=
  { status := 429, error := some "Trop de requêtes. Veuillez réessayer plus tard.",
    headerLimit := some rl.limit, headerRemaining := some rl.remaining,
    headerReset := some rl.reset }

/-- JavaScript `s.substring(0, n)`, character-level. -/
def jsSubstringTo (s : String) (n : Nat) : String :=
  String.mk (s.data.take n)

/-- Modelled from the spec: the session title produced by
`createConversationSession` in `lib/db.js` (file missing from the snapshot)
for a seed text — "first 50 characters of the triggering user message,
ellipsis-suffixed if truncated" (spec 4.5). -/
def createSessionTitle (seed : String) : String :=
  jsSubstringTo seed 50 ++ (if 50 < seed.length then "..." else "")

/-- A message of the `saveAnonymous` payload (`{role, content}`). -/
structure AnonMsg where
  role : String
  content : String
deriving Repr, DecidableEq

/-- `messages.find(m => m.role === 'user')` of the `saveAnonymous` branch. -/
def firstUserMessage (ms : List AnonMsg) : Option AnonMsg :=
  ms.find? (fun m => m.role == "user")

/-- The title computed by the `saveAnonymous` branch
(`src/unnamed/part_000`, lines 120-126): first user message truncated to 50
characters with an ellipsis when longer, or the fixed fallback title. -/
def saveAnonymousTitle (ms : List AnonMsg) : String :=
  match firstUserMessage ms with
  | some m => jsSubstringTo m.content 50 ++ (if 50 < m.content.length then "..." else "")
  | none => "Conversation anonyme"

/-- The two message appends of the recording step (chat endpoint lines
321-333).  Each may fail; a failure aborts the remaining steps but keeps the
effects already performed, and is swallowed by the surrounding catch. -/
def appendMessages (w : World) (sid : Nat) (message answer : String)
    (tokensUsed : Nat) (fromCache : Bool) (evs : List Event) :
    World × Option Nat × List Event :=
  if w.addUserMsgFails then (w, some sid, evs)
  else
    let mUser : MessageRec :=
      { sessionId := sid, role := "user", content := message, tokensUsed := 0,
        responseTimeMs := none, wasCached := false }
    let mAssistant : MessageRec :=
      { sessionId := sid, role := "assistant", content := answer,
        tokensUsed := tokensUsed, responseTimeMs := some w.responseTimeMs,
        wasCached := fromCache }
    let w1 := { w with messages := w.messages ++ [mUser] }
    if w.addAssistantMsgFails then (w1, some sid, evs ++ [Event.messageAppend])
    else
      ({ w1 with messages := w1.messages ++ [mAssistant] },
       some sid, evs ++ [Event.messageAppend, Event.messageAppend])

/-- The conversation-recording step (chat endpoint lines 313-345): create a
session when the caller supplied none, then append the user question and the
assistant answer.  Entirely best-effort: any failure leaves the remaining
steps undone and never surfaces. -/
def recordConversation (w : World) (uid : Nat) (sessionId : Option Nat)
    (message answer : String) (tokensUsed : Nat) (fromCache : Bool) :
    World × Option Nat × List Event :=
  match sessionId with
  | some sid => appendMessages w sid message answer tokensUsed fromCache []
  | none =>
      if w.createSessionFails then (w, none, [])
      else
        let sid := w.nextSessionId
        let s : SessionRec := { id := sid, userId := uid, title := createSessionTitle message }
        let w1 := { w with sessions := w.sessions ++ [s], nextSessionId := w.nextSessionId + 1 }
        appendMessages w1 sid message answer tokensUsed fromCache [Event.sessionCreate]

/-- The tail of the success path (chat endpoint lines 308-366): record the
conversation for an identified owner, advance the anonymous counter, set the
refreshed counter cookie for anonymous callers, and assemble the success
body. -/
def finishChat (req : ChatRequest) (w : World) (rl : RateLimitResult)
    (registered : Bool) (qUsed : Nat) (currentUser : Option User)
    (answer : String) (fromCache : Bool) (tokensUsed : Nat) (cache2 : Cache)
    (evs : List Event) : HandlerOut :=
  let w1 := { w with cache := cache2 }
  let rec0 :=
    match currentUser with
    | some u => recordConversation w1 u.id req.sessionId req.message answer tokensUsed fromCache
    | none => (w1, req.sessionId, [])
  let newQUsed := if registered then qUsed else qUsed + 1
  let remaining : Remaining :=
    if registered then Remaining.unlimited else Remaining.count (2 - newQUsed)
  let cookie : Option Nat := if registered then none else some newQUsed
  let cookieEvs : List Event := if registered then [] else [Event.cookieSet]
  { resp := addRateLimitHeaders
      { status := 200, success := some true, response := some answer,
        qUsed := some newQUsed, remaining := some remaining,
        cached := some fromCache, sessionId := rec0.2.1,
        cookieQUsed := cookie } rl,
    world := rec0.1,
    events := evs ++ rec0.2.2 ++ cookieEvs }

/-- The user resolved by the handler (chat endpoint lines 200-208): a lookup
is attempted only for a caller presenting both `registered=1` and a truthy
`user_email` cookie; a failing lookup is caught and leaves the user
unresolved. -/
def currentUserOf (req : ChatRequest) (w : World) : Option User :=
  if (req.registeredCookie = some "1" : Bool) && strTruthy req.userEmailCookie then
    if w.userLookupFails then none
    else findUserByEmail w.users (req.userEmailCookie.getD "")
  else none

/-- The chat endpoint handler (`src/api/conversations.js`, lines 172-374),
embedded as a pure function from the request and the external world to the
response, the final world, and the trace of performed events. -/
def chatHandler (req : ChatRequest) (w : World) : HandlerOut :=
  if req.method ≠ "POST" then
    { resp := { status := 405, error := some "Method not allowed" }, world := w, events := [] }
  else if jsTrim req.message = "" then
    { resp := { status := 400, error := some "Message is required" }, world := w, events := [] }
  else
    let qUsed := req.qUsedCookie.getD 0
    let registered : Bool := req.registeredCookie = some "1"
    let currentUser : Option User := currentUserOf req w
    let rl := limiterFor req w
    if rl.success = false then
      { resp := sendRateLimitError rl, world := w, events := [Event.rateCheck] }
    else if registered = false ∧ 2 ≤ qUsed then
      { resp := addRateLimitHeaders
          { status := 200, success := some false, needSignup := some true,
            message := some "Vous avez utilisé vos 2 questions gratuites. Inscrivez-vous pour continuer.",
            qUsed := some qUsed, remaining := some (Remaining.count 0) } rl,
        world := w, events := [Event.rateCheck, Event.quotaGate] }
    else if w.apiKeyPresent = false then
      { resp := addRateLimitHeaders
          { status := 500,
            error := some "Configuration manquante. Veuillez contacter l\x27administrateur." } rl,
        world := w, events := [Event.rateCheck, Event.quotaGate] }
    else
      match (getCachedAnswer w.cache req.message).1 with
      | some e =>
          finishChat req w rl registered qUsed currentUser e.answer true 0
            (getCachedAnswer w.cache req.message).2
            [Event.rateCheck, Event.quotaGate, Event.cacheLookup]
      | none =>
          if w.provider.ok = false then
            { resp := addRateLimitHeaders
                { status := 500,
                  error := some "Erreur lors de la génération de la réponse. Veuillez réessayer." } rl,
              world := w,
              events := [Event.rateCheck, Event.quotaGate, Event.cacheLookup, Event.providerCall] }
          else
            let answer := w.provider.content.getD "Désolé, je n\x27ai pas pu générer une réponse."
            finishChat req w rl registered qUsed currentUser answer false
              w.provider.totalTokens (saveCachedAnswer w.cache req.message answer)
              [Event.rateCheck, Event.quotaGate, Event.cacheLookup,
               Event.providerCall, Event.cacheStore]

/-- The answer the pipeline produces for a question in a given world (cache
hit, provider success, or none when the provider fails on a miss), together
with the cached flag and the token count.  This mirrors lines 251-303 of the
chat endpoint, read-only. -/
def computeAnswer (w : World) (message : String) : Option (String × Bool × Nat) :=
  match (getCachedAnswer w.cache message).1 with
  | some e => some (e.answer, true, 0)
  | none =>
      if w.provider.ok then
        some (w.provider.content.getD "Désolé, je n\x27ai pas pu générer une réponse.",
              false, w.provider.totalTokens)
      else none

theorem cacheFind_cacheInsert_self (c : Cache) (key : String) (e : CacheEntry) :
    cacheFind (cacheInsert c key e) key = some e := by
  induction c with
  | nil => simp [cacheInsert, cacheFind]
  | cons p rest ih =>
      obtain ⟨k, e0⟩ := p
      by_cases hk : k = key
      · simp [cacheInsert, hk, cacheFind]
      · simp [cacheInsert, hk, cacheFind, ih]

theorem cacheFind_cacheInsert_other (c : Cache) (key k' : String) (e : CacheEntry)
    (h : k' ≠ key) : cacheFind (cacheInsert c key e) k' = cacheFind c k' := by
  induction c with
  | nil => simp [cacheInsert, cacheFind, Ne.symm h]
  | cons p rest ih =>
      obtain ⟨k, e0⟩ := p
      by_cases hk : k = key
      · subst hk
        simp [cacheInsert, cacheFind, Ne.symm h]
      · simp only [cacheInsert, if_neg hk, cacheFind]
        rw [ih]

theorem cacheFind_cacheBump_self (c : Cache) (key : String) :
    cacheFind (cacheBump c key) key =
      (cacheFind c key).map (fun e => { e with hitCount := e.hitCount + 1 }) := by
  induction c with
  | nil => simp [cacheBump, cacheFind]
  | cons p rest ih =>
      obtain ⟨k, e0⟩ := p
      by_cases hk : k = key
      · simp [cacheBump, hk, cacheFind]
      · simp [cacheBump, hk, cacheFind, ih]

theorem cacheFind_cacheBump_other (c : Cache) (key k' : String) (h : k' ≠ key) :
    cacheFind (cacheBump c key) k' = cacheFind c k' := by
  induction c with
  | nil => simp [cacheBump]
  | cons p rest ih =>
      obtain ⟨k, e0⟩ := p
      by_cases hk : k = key
      · subst hk
        simp [cacheBump, cacheFind, Ne.symm h]
      · simp only [cacheBump, if_neg hk, cacheFind]
        rw [ih]

theorem string_mk_append (a b : List Char) :
    String.mk a ++ String.mk b = String.mk (a ++ b) := rfl

theorem string_length_mk (a : List Char) : (String.mk a).length = a.length := rfl

theorem createSessionTitle_of_le (s : String) (h : s.length ≤ 50) :
    createSessionTitle s = s := by
  obtain ⟨l⟩ := s
  have hl : l.length ≤ 50 := h
  have hnot : ¬ (50 < (String.mk l).length) := by
    rw [string_length_mk]; omega
  show jsSubstringTo (String.mk l) 50 ++ (if _ then _ else _) = String.mk l
  rw [if_neg hnot]
  show String.mk (l.take 50) ++ String.mk [] = String.mk l
  rw [string_mk_append, List.append_nil, List.take_of_length_le hl]

theorem createSessionTitle_of_lt (s : String) (h : 50 < s.length) :
    createSessionTitle s = jsSubstringTo s 50 ++ "..." := by
  rw [createSessionTitle, if_pos h]

theorem appendMessages_cache (w : World) (sid : Nat) (m a : String) (tk : Nat)
    (fc : Bool) (evs : List Event) :
    (appendMessages w sid m a tk fc evs).1.cache = w.cache := by
  unfold appendMessages
  split
  · rfl
  · split <;> rfl

theorem appendMessages_sessions (w : World) (sid : Nat) (m a : String) (tk : Nat)
    (fc : Bool) (evs : List Event) :
    (appendMessages w sid m a tk fc evs).1.sessions = w.sessions := by
  unfold appendMessages
  split
  · rfl
  · split <;> rfl

theorem recordConversation_cache (w : World) (uid : Nat) (sid : Option Nat)
    (m a : String) (tk : Nat) (fc : Bool) :
    (recordConversation w uid sid m a tk fc).1.cache = w.cache := by
  cases sid with
  | some s => exact appendMessages_cache ..
  | none =>
      simp only [recordConversation]
      split
      · rfl
      · simp only [appendMessages_cache]

theorem finishChat_resp (req : ChatRequest) (w : World) (rl : RateLimitResult)
    (registered : Bool) (qUsed : Nat) (cu : Option User) (answer : String)
    (fc : Bool) (tk : Nat) (cache2 : Cache) (evs : List Event) :
    (finishChat req w rl registered qUsed cu answer fc tk cache2 evs).resp.status = 200 ∧
    (finishChat req w rl registered qUsed cu answer fc tk cache2 evs).resp.success = some true ∧
    (finishChat req w rl registered qUsed cu answer fc tk cache2 evs).resp.response = some answer ∧
    (finishChat req w rl registered qUsed cu answer fc tk cache2 evs).resp.cached = some fc ∧
    (finishChat req w rl registered qUsed cu answer fc tk cache2 evs).resp.needSignup = none ∧
    (finishChat req w rl registered qUsed cu answer fc tk cache2 evs).resp.qUsed =
      some (if registered then qUsed else qUsed + 1) ∧
    (finishChat req w rl registered qUsed cu answer fc tk cache2 evs).resp.remaining =
      some (if registered then Remaining.unlimited
            else Remaining.count (2 - (qUsed + 1))) ∧
    (finishChat req w rl registered qUsed cu answer fc tk cache2 evs).resp.cookieQUsed =
      (if registered then none else some (qUsed + 1)) ∧
    (finishChat req w rl registered qUsed cu answer fc tk cache2 evs).resp.headerLimit =
      some rl.limit ∧
    (finishChat req w rl registered qUsed cu answer fc tk cache2 evs).resp.headerRemaining =
      some rl.remaining ∧
    (finishChat req w rl registered qUsed cu answer fc tk cache2 evs).resp.headerReset =
      some rl.reset := by
  cases registered <;>
    simp [finishChat, addRateLimitHeaders]

theorem finishChat_world_cache (req : ChatRequest) (w : World) (rl : RateLimitResult)
    (registered : Bool) (qUsed : Nat) (cu : Option User) (answer : String)
    (fc : Bool) (tk : Nat) (cache2 : Cache) (evs : List Event) :
    (finishChat req w rl registered qUsed cu answer fc tk cache2 evs).world.cache = cache2 := by
  unfold finishChat
  cases cu with
  | none => rfl
  | some u => simp only [recordConversation_cache]

theorem finishChat_world_none (req : ChatRequest) (w : World) (rl : RateLimitResult)
    (registered : Bool) (qUsed : Nat) (answer : String)
    (fc : Bool) (tk : Nat) (cache2 : Cache) (evs : List Event) :
    (finishChat req w rl registered qUsed none answer fc tk cache2 evs).world =
      { w with cache := cache2 } := by
  rfl

/-- On the success path (admitted, quota-admitted, configured, and an answer
produced) the handler is exactly `finishChat` on the produced answer: a cache
hit bumps the hit counter, a miss stores the fresh answer. -/
theorem chatHandler_success_eq (req : ChatRequest) (w : World) (a : String)
    (fc : Bool) (tk : Nat)
    (hm : req.method = "POST") (hne : ¬ jsTrim req.message = "")
    (hrl : (limiterFor req w).success = true)
    (hgate : req.registeredCookie = some "1" ∨ req.qUsedCookie.getD 0 < 2)
    (hkey : w.apiKeyPresent = true)
    (hans : computeAnswer w req.message = some (a, fc, tk)) :
    chatHandler req w =
      if fc then
        finishChat req w (limiterFor req w) (decide (req.registeredCookie = some "1"))
          (req.qUsedCookie.getD 0) (currentUserOf req w) a fc tk
          (getCachedAnswer w.cache req.message).2
          [Event.rateCheck, Event.quotaGate, Event.cacheLookup]
      else
        finishChat req w (limiterFor req w) (decide (req.registeredCookie = some "1"))
          (req.qUsedCookie.getD 0) (currentUserOf req w) a fc tk
          (saveCachedAnswer w.cache req.message a)
          [Event.rateCheck, Event.quotaGate, Event.cacheLookup,
           Event.providerCall, Event.cacheStore] := by
  have h1 : ¬ (req.method ≠ "POST") := by simp [hm]
  have h2 : ¬ ((limiterFor req w).success = false) := by simp [hrl]
  have hg : ¬ ((decide (req.registeredCookie = some "1")) = false ∧
      2 ≤ req.qUsedCookie.getD 0) := by
    rcases hgate with h | h
    · simp [h]
    · intro hc
      omega
  have h4 : ¬ (w.apiKeyPresent = false) := by simp [hkey]
  simp only [chatHandler, if_neg h1, if_neg hne, if_neg h2, if_neg hg, if_neg h4]
  cases hfind : cacheFind w.cache (normalizeKey req.message) with
  | some e =>
      have hco : computeAnswer w req.message = some (e.answer, true, 0) := by
        simp [computeAnswer, getCachedAnswer, hfind]
      rw [hans] at hco
      obtain ⟨ha, hfc, htk⟩ : e.answer = a ∧ fc = true ∧ 0 = tk := by
        simpa using hco.symm
      subst ha hfc
      subst htk
      simp [getCachedAnswer, hfind]
  | none =>
      cases hok : w.provider.ok with
      | false =>
          exfalso
          simp [computeAnswer, getCachedAnswer, hfind, hok] at hans
      | true =>
          have hco : computeAnswer w req.message =
              some (w.provider.content.getD "Désolé, je n\x27ai pas pu générer une réponse.",
                    false, w.provider.totalTokens) := by
            simp [computeAnswer, getCachedAnswer, hfind, hok]
          rw [hans] at hco
          obtain ⟨ha, hfc, htk⟩ :
              w.provider.content.getD "Désolé, je n\x27ai pas pu générer une réponse." = a ∧
              fc = false ∧ w.provider.totalTokens = tk := by
            simpa using hco.symm
          subst ha
          subst hfc
          subst htk
          simp [getCachedAnswer, hfind, hok]

/-- Every `qUsed` value reported in a response body is at least the counter
the request arrived with: no path of the handler decrements the counter. -/
theorem chatHandler_qUsed_monotone (req : ChatRequest) (w : World) (n : Nat)
    (h : (chatHandler req w).resp.qUsed = some n) :
    req.qUsedCookie.getD 0 ≤ n := by
  simp only [chatHandler] at h
  split at h
  · simp at h
  · split at h
    · simp at h
    · split at h
      · simp [sendRateLimitError] at h
      · split at h
        · simp [addRateLimitHeaders] at h
          omega
        · split at h
          · simp [addRateLimitHeaders] at h
          · split at h
            · rw [(finishChat_resp ..).2.2.2.2.2.1] at h
              split at h <;> (simp at h; omega)
            · split at h
              · simp [addRateLimitHeaders] at h
              · rw [(finishChat_resp ..).2.2.2.2.2.1] at h
                split at h <;> (simp at h; omega)

/-- Claim C1: for every request from an unauthenticated caller whose counter
`qUsed` is at least 2, once rate-limit admission has passed, the chat handler
returns HTTP 200 with `success: false`, `needSignup: true`, the incoming
`qUsed` and `remaining: 0`, and neither the cache lookup nor the provider
call is performed (the world is left unchanged). -/
theorem claim1_quota_gate_blocks (req : ChatRequest) (w : World)
    (hm : req.method = "POST") (hne : ¬ jsTrim req.message = "")
    (hreg : req.registeredCookie ≠ some "1")
    (hq : 2 ≤ req.qUsedCookie.getD 0)
    (hrl : (limiterFor req w).success = true) :
    (chatHandler req w).resp.status = 200 ∧
    (chatHandler req w).resp.success = some false ∧
    (chatHandler req w).resp.needSignup = some true ∧
    (chatHandler req w).resp.qUsed = some (req.qUsedCookie.getD 0) ∧
    (chatHandler req w).resp.remaining = some (Remaining.count 0) ∧
    Event.cacheLookup ∉ (chatHandler req w).events ∧
    Event.providerCall ∉ (chatHandler req w).events ∧
    (chatHandler req w).world = w := by
  simp [chatHandler, hm, hne, hrl, hreg, hq, addRateLimitHeaders]

/-- Witness for claim C1 at a concrete request and world. -/
theorem claim1_quota_gate_blocks_witness :
    let req : ChatRequest :=
      { method := "POST", message := "Bonjour", sessionId := none,
        qUsedCookie := some 2, registeredCookie := none, userEmailCookie := none }
    let w : World :=
      { users := [], userLookupFails := false,
        rateAnon := { success := true, limit := 10, remaining := 9, reset := 111 },
        rateReg := { success := true, limit := 100, remaining := 99, reset := 222 },
        apiKeyPresent := true, cache := [],
        provider := { ok := true, status := 200, content := some "R", totalTokens := 1 },
        createSessionFails := false, addUserMsgFails := false,
        addAssistantMsgFails := false, nextSessionId := 0, responseTimeMs := 0,
        sessions := [], messages := [] }
    (chatHandler req w).resp.status = 200 ∧
    (chatHandler req w).resp.success = some false ∧
    (chatHandler req w).resp.needSignup = some true ∧
    (chatHandler req w).resp.qUsed = some (req.qUsedCookie.getD 0) ∧
    (chatHandler req w).resp.remaining = some (Remaining.count 0) ∧
    Event.cacheLookup ∉ (chatHandler req w).events ∧
    Event.providerCall ∉ (chatHandler req w).events ∧
    (chatHandler req w).world = w :=
  claim1_quota_gate_blocks _ _ (by decide) (by decide) (by decide) (by decide) (by decide)

/-- Claim C3: for every request denied by the rate limiter, the handler
returns the denial response with the world unchanged and an event trace
consisting of the admission check alone — the anonymous quota counter is
neither read for gating nor advanced (no quota field, no counter cookie),
and no cache lookup or provider call happens. -/
theorem claim3_denial_short_circuits (req : ChatRequest) (w : World)
    (hm : req.method = "POST") (hne : ¬ jsTrim req.message = "")
    (hrl : (limiterFor req w).success = false) :
    (chatHandler req w).resp.status = 429 ∧
    (chatHandler req w).resp.qUsed = none ∧
    (chatHandler req w).resp.cookieQUsed = none ∧
    (chatHandler req w).events = [Event.rateCheck] ∧
    (chatHandler req w).world = w := by
  simp [chatHandler, hm, hne, hrl, sendRateLimitError]

/-- Witness for claim C3 at a concrete request and world. -/
theorem claim3_denial_short_circuits_witness :
    let req : ChatRequest :=
      { method := "POST", message := "Bonjour", sessionId := none,
        qUsedCookie := some 0, registeredCookie := none, userEmailCookie := none }
    let w : World :=
      { users := [], userLookupFails := false,
        rateAnon := { success := false, limit := 10, remaining := 0, reset := 111 },
        rateReg := { success := true, limit := 100, remaining := 99, reset := 222 },
        apiKeyPresent := true, cache := [],
        provider := { ok := true, status := 200, content := some "R", totalTokens := 1 },
        createSessionFails := false, addUserMsgFails := false,
        addAssistantMsgFails := false, nextSessionId := 0, responseTimeMs := 0,
        sessions := [], messages := [] }
    (chatHandler req w).resp.status = 429 ∧
    (chatHandler req w).resp.qUsed = none ∧
    (chatHandler req w).resp.cookieQUsed = none ∧
    (chatHandler req w).events = [Event.rateCheck] ∧
    (chatHandler req w).world = w :=
  claim3_denial_short_circuits _ _ (by decide) (by decide) (by decide)

/-- Claim C9, counterexample: the claim states that every response of the
answer endpoint carries the usage headers, including the empty-message
rejection; but the empty-message rejection is issued before the rate limiter
runs and carries no usage headers at all. -/
theorem claim9_counterexample :
    let req : ChatRequest :=
      { method := "POST", message := "   ", sessionId := none,
        qUsedCookie := some 0, registeredCookie := none, userEmailCookie := none }
    let w : World :=
      { users := [], userLookupFails := false,
        rateAnon := { success := true, limit := 10, remaining := 9, reset := 111 },
        rateReg := { success := true, limit := 100, remaining := 99, reset := 222 },
        apiKeyPresent := true, cache := [],
        provider := { ok := true, status := 200, content := some "R", totalTokens := 1 },
        createSessionFails := false, addUserMsgFails := false,
        addAssistantMsgFails := false, nextSessionId := 0, responseTimeMs := 0,
        sessions := [], messages := [] }
    (chatHandler req w).resp.status = 400 ∧
    (chatHandler req w).resp.headerLimit = none ∧
    (chatHandler req w).resp.headerRemaining = none ∧
    (chatHandler req w).resp.headerReset = none := by
  decide

/-- Claim C9, amended: every response issued once the rate limiter has been
consulted — the denial, the quota-exhausted response, the missing-key error,
the provider-failure error and the success response — carries the usage
headers encoding the limit, the remaining budget and the reset time of the
admission decision; the rejections issued before admission (wrong method,
empty message) carry none. -/
theorem claim9_headers_after_admission (req : ChatRequest) (w : World)
    (hm : req.method = "POST") (hne : ¬ jsTrim req.message = "") :
    (chatHandler req w).resp.headerLimit = some (limiterFor req w).limit ∧
    (chatHandler req w).resp.headerRemaining = some (limiterFor req w).remaining ∧
    (chatHandler req w).resp.headerReset = some (limiterFor req w).reset := by
  have h1 : ¬ (req.method ≠ "POST") := by simp [hm]
  simp only [chatHandler, if_neg h1, if_neg hne]
  split
  · simp [sendRateLimitError]
  · split
    · simp [addRateLimitHeaders]
    · split
      · simp [addRateLimitHeaders]
      · split
        · exact ⟨(finishChat_resp ..).2.2.2.2.2.2.2.2.1,
                 (finishChat_resp ..).2.2.2.2.2.2.2.2.2.1,
                 (finishChat_resp ..).2.2.2.2.2.2.2.2.2.2⟩
        · split
          · simp [addRateLimitHeaders]
          · exact ⟨(finishChat_resp ..).2.2.2.2.2.2.2.2.1,
                   (finishChat_resp ..).2.2.2.2.2.2.2.2.2.1,
                   (finishChat_resp ..).2.2.2.2.2.2.2.2.2.2⟩

/-- Witness for the amended C9 at a concrete request and world. -/
theorem claim9_headers_after_admission_witness :
    let req : ChatRequest :=
      { method := "POST", message := "Bonjour", sessionId := none,
        qUsedCookie := some 0, registeredCookie := none, userEmailCookie := none }
    let w : World :=
      { users := [], userLookupFails := false,
        rateAnon := { success := true, limit := 10, remaining := 9, reset := 111 },
        rateReg := { success := true, limit := 100, remaining := 99, reset := 222 },
        apiKeyPresent := true, cache := [],
        provider := { ok := true, status := 200, content := some "R", totalTokens := 1 },
        createSessionFails := false, addUserMsgFails := false,
        addAssistantMsgFails := false, nextSessionId := 0, responseTimeMs := 0,
        sessions := [], messages := [] }
    (chatHandler req w).resp.headerLimit = some (limiterFor req w).limit ∧
    (chatHandler req w).resp.headerRemaining = some (limiterFor req w).remaining ∧
    (chatHandler req w).resp.headerReset = some (limiterFor req w).reset :=
  claim9_headers_after_admission _ _ (by decide) (by decide)

/-- Claim C2: for every successfully answered request (cache hit or provider
success), the reported counter is `qUsed + 1` and `remaining` is
`max 0 (2 - (qUsed + 1))` (truncated subtraction) for an unauthenticated
caller, while a registered caller keeps counter `qUsed` and is reported
unlimited; and no response of any request reports a counter below the one it
arrived with. -/
theorem claim2_counter_advance (req : ChatRequest) (w : World) (a : String)
    (fc : Bool) (tk : Nat)
    (hm : req.method = "POST") (hne : ¬ jsTrim req.message = "")
    (hrl : (limiterFor req w).success = true)
    (hgate : req.registeredCookie = some "1" ∨ req.qUsedCookie.getD 0 < 2)
    (hkey : w.apiKeyPresent = true)
    (hans : computeAnswer w req.message = some (a, fc, tk)) :
    ((req.registeredCookie = some "1" →
        (chatHandler req w).resp.qUsed = some (req.qUsedCookie.getD 0) ∧
        (chatHandler req w).resp.remaining = some Remaining.unlimited ∧
        (chatHandler req w).resp.cookieQUsed = none) ∧
     (req.registeredCookie ≠ some "1" →
        (chatHandler req w).resp.qUsed = some (req.qUsedCookie.getD 0 + 1) ∧
        (chatHandler req w).resp.remaining =
          some (Remaining.count (2 - (req.qUsedCookie.getD 0 + 1))) ∧
        (chatHandler req w).resp.cookieQUsed = some (req.qUsedCookie.getD 0 + 1)) ∧
     (chatHandler req w).resp.success = some true) ∧
    ∀ (req2 : ChatRequest) (w2 : World) (n : Nat),
      (chatHandler req2 w2).resp.qUsed = some n → req2.qUsedCookie.getD 0 ≤ n := by
  refine ⟨?_, fun req2 w2 n h => chatHandler_qUsed_monotone req2 w2 n h⟩
  rw [chatHandler_success_eq req w a fc tk hm hne hrl hgate hkey hans]
  constructor
  · intro hr
    cases fc <;>
      simp [finishChat, addRateLimitHeaders, hr]
  constructor
  · intro hr
    cases fc <;>
      simp [finishChat, addRateLimitHeaders, hr]
  · cases fc <;>
      simp [finishChat, addRateLimitHeaders]

/-- Witness for claim C2 at a concrete anonymous request with `qUsed = 0` and a
provider answer. -/
theorem claim2_counter_advance_witness :
    let req : ChatRequest :=
      { method := "POST", message := "Bonjour", sessionId := none,
        qUsedCookie := some 0, registeredCookie := none, userEmailCookie := none }
    let w : World :=
      { users := [], userLookupFails := false,
        rateAnon := { success := true, limit := 10, remaining := 9, reset := 111 },
        rateReg := { success := true, limit := 100, remaining := 99, reset := 222 },
        apiKeyPresent := true, cache := [],
        provider := { ok := true, status := 200, content := some "R", totalTokens := 5 },
        createSessionFails := false, addUserMsgFails := false,
        addAssistantMsgFails := false, nextSessionId := 0, responseTimeMs := 0,
        sessions := [], messages := [] }
    ((req.registeredCookie = some "1" →
        (chatHandler req w).resp.qUsed = some (req.qUsedCookie.getD 0) ∧
        (chatHandler req w).resp.remaining = some Remaining.unlimited ∧
        (chatHandler req w).resp.cookieQUsed = none) ∧
     (req.registeredCookie ≠ some "1" →
        (chatHandler req w).resp.qUsed = some (req.qUsedCookie.getD 0 + 1) ∧
        (chatHandler req w).resp.remaining =
          some (Remaining.count (2 - (req.qUsedCookie.getD 0 + 1))) ∧
        (chatHandler req w).resp.cookieQUsed = some (req.qUsedCookie.getD 0 + 1)) ∧
     (chatHandler req w).resp.success = some true) ∧
    ∀ (req2 : ChatRequest) (w2 : World) (n : Nat),
      (chatHandler req2 w2).resp.qUsed = some n → req2.qUsedCookie.getD 0 ≤ n :=
  claim2_counter_advance _ _ "R" false 5 (by decide) (by decide) (by decide)
    (Or.inr (by decide)) (by decide) (by decide)

/-- Claim C5: two question texts that agree after trimming and case-folding
share a cache key — storing an answer under `q1` and then looking `q2` up is
a hit returning that answer, because lookup and store both normalize the
question with the same `normalizeKey`. -/
theorem claim5_normalization_shared (c : Cache) (q1 q2 a : String)
    (h : normalizeKey q1 = normalizeKey q2) :
    (getCachedAnswer (saveCachedAnswer c q1 a) q2).1 =
      some { answer := a, hitCount := 0 } := by
  simp only [getCachedAnswer, saveCachedAnswer, h, cacheFind_cacheInsert_self]

/-- Witness for claim C5: `"  BONJOUR "` and `"bonjour"` differ only in case
and surrounding whitespace. -/
theorem claim5_normalization_shared_witness :
    normalizeKey "  BONJOUR " = normalizeKey "bonjour" ∧
    (getCachedAnswer (saveCachedAnswer [] "  BONJOUR " "Réponse") "bonjour").1 =
      some { answer := "Réponse", hitCount := 0 } :=
  ⟨by decide, claim5_normalization_shared [] "  BONJOUR " "bonjour" "Réponse" (by decide)⟩

/-- Claim C6: a request served from the cache returns exactly the stored
answer text, and the only change a hit makes to the cache is incrementing
the hit counter of that entry: the entry's answer is preserved and every
other key is untouched. -/
theorem claim6_hit_preserves_entry (req : ChatRequest) (w : World) (e : CacheEntry)
    (hm : req.method = "POST") (hne : ¬ jsTrim req.message = "")
    (hrl : (limiterFor req w).success = true)
    (hgate : req.registeredCookie = some "1" ∨ req.qUsedCookie.getD 0 < 2)
    (hkey : w.apiKeyPresent = true)
    (hhit : cacheFind w.cache (normalizeKey req.message) = some e) :
    (chatHandler req w).resp.response = some e.answer ∧
    (chatHandler req w).resp.cached = some true ∧
    cacheFind (chatHandler req w).world.cache (normalizeKey req.message) =
      some { answer := e.answer, hitCount := e.hitCount + 1 } ∧
    ∀ k, k ≠ normalizeKey req.message →
      cacheFind (chatHandler req w).world.cache k = cacheFind w.cache k := by
  have h1 : ¬ (req.method ≠ "POST") := by simp [hm]
  have h2 : ¬ ((limiterFor req w).success = false) := by simp [hrl]
  have hg : ¬ ((decide (req.registeredCookie = some "1")) = false ∧
      2 ≤ req.qUsedCookie.getD 0) := by
    rcases hgate with h | h
    · simp [h]
    · intro hc
      omega
  have h4 : ¬ (w.apiKeyPresent = false) := by simp [hkey]
  simp only [chatHandler, if_neg h1, if_neg hne, if_neg h2, if_neg hg, if_neg h4,
             getCachedAnswer, hhit]
  refine ⟨?_, ?_, ?_, ?_⟩
  · exact (finishChat_resp ..).2.2.1
  · exact (finishChat_resp ..).2.2.2.1
  · rw [finishChat_world_cache, cacheFind_cacheBump_self, hhit]
    rfl
  · intro k hk
    rw [finishChat_world_cache, cacheFind_cacheBump_other _ _ _ hk]

/-- Witness for claim C6 at a concrete request hitting a one-entry cache. -/
theorem claim6_hit_preserves_entry_witness :
    let req : ChatRequest :=
      { method := "POST", message := "Bonjour", sessionId := none,
        qUsedCookie := some 0, registeredCookie := none, userEmailCookie := none }
    let w : World :=
      { users := [], userLookupFails := false,
        rateAnon := { success := true, limit := 10, remaining := 9, reset := 111 },
        rateReg := { success := true, limit := 100, remaining := 99, reset := 222 },
        apiKeyPresent := true,
        cache := [("bonjour", { answer := "Réponse", hitCount := 3 })],
        provider := { ok := true, status := 200, content := some "R", totalTokens := 1 },
        createSessionFails := false, addUserMsgFails := false,
        addAssistantMsgFails := false, nextSessionId := 0, responseTimeMs := 0,
        sessions := [], messages := [] }
    (chatHandler req w).resp.response = some "Réponse" ∧
    (chatHandler req w).resp.cached = some true ∧
    cacheFind (chatHandler req w).world.cache (normalizeKey req.message) =
      some { answer := "Réponse", hitCount := 4 } ∧
    ∀ k, k ≠ normalizeKey req.message →
      cacheFind (chatHandler req w).world.cache k = cacheFind w.cache k :=
  claim6_hit_preserves_entry _ _ { answer := "Réponse", hitCount := 3 }
    (by decide) (by decide) (by decide) (Or.inr (by decide)) (by decide) (by decide)

/-- Claim C7: on a cache miss with a failing provider call, the handler
returns a generic HTTP 500 whose error text is a fixed constant (independent
of the upstream status, so no upstream detail leaks), produces no answer,
leaves the whole world unchanged (nothing cached, nothing recorded), sets no
counter cookie, and performs no store or recording event. -/
theorem claim7_provider_failure_generic (req : ChatRequest) (w : World)
    (hm : req.method = "POST") (hne : ¬ jsTrim req.message = "")
    (hrl : (limiterFor req w).success = true)
    (hgate : req.registeredCookie = some "1" ∨ req.qUsedCookie.getD 0 < 2)
    (hkey : w.apiKeyPresent = true)
    (hmiss : cacheFind w.cache (normalizeKey req.message) = none)
    (hpf : w.provider.ok = false) :
    (chatHandler req w).resp.status = 500 ∧
    (chatHandler req w).resp.error =
      some "Erreur lors de la génération de la réponse. Veuillez réessayer." ∧
    (chatHandler req w).resp.response = none ∧
    (chatHandler req w).resp.success = none ∧
    (chatHandler req w).resp.cookieQUsed = none ∧
    (chatHandler req w).world = w ∧
    Event.cacheStore ∉ (chatHandler req w).events ∧
    Event.sessionCreate ∉ (chatHandler req w).events ∧
    Event.messageAppend ∉ (chatHandler req w).events := by
  have h1 : ¬ (req.method ≠ "POST") := by simp [hm]
  have h2 : ¬ ((limiterFor req w).success = false) := by simp [hrl]
  have hg : ¬ ((decide (req.registeredCookie = some "1")) = false ∧
      2 ≤ req.qUsedCookie.getD 0) := by
    rcases hgate with h | h
    · simp [h]
    · intro hc
      omega
  have h4 : ¬ (w.apiKeyPresent = false) := by simp [hkey]
  simp only [chatHandler, if_neg h1, if_neg hne, if_neg h2, if_neg hg, if_neg h4]
  simp [getCachedAnswer, hmiss, hpf, addRateLimitHeaders]

/-- Witness for claim C7 at a concrete request with an empty cache and a
provider returning a non-success status. -/
theorem claim7_provider_failure_generic_witness :
    let req : ChatRequest :=
      { method := "POST", message := "Bonjour", sessionId := none,
        qUsedCookie := some 0, registeredCookie := none, userEmailCookie := none }
    let w : World :=
      { users := [], userLookupFails := false,
        rateAnon := { success := true, limit := 10, remaining := 9, reset := 111 },
        rateReg := { success := true, limit := 100, remaining := 99, reset := 222 },
        apiKeyPresent := true, cache := [],
        provider := { ok := false, status := 502, content := none, totalTokens := 0 },
        createSessionFails := false, addUserMsgFails := false,
        addAssistantMsgFails := false, nextSessionId := 0, responseTimeMs := 0,
        sessions := [], messages := [] }
    (chatHandler req w).resp.status = 500 ∧
    (chatHandler req w).resp.error =
      some "Erreur lors de la génération de la réponse. Veuillez réessayer." ∧
    (chatHandler req w).resp.response = none ∧
    (chatHandler req w).resp.success = none ∧
    (chatHandler req w).resp.cookieQUsed = none ∧
    (chatHandler req w).world = w ∧
    Event.cacheStore ∉ (chatHandler req w).events ∧
    Event.sessionCreate ∉ (chatHandler req w).events ∧
    Event.messageAppend ∉ (chatHandler req w).events :=
  claim7_provider_failure_generic _ _ (by decide) (by decide) (by decide)
    (Or.inr (by decide)) (by decide) (by decide) (by decide)

/-- For an identified owner, a caller-supplied `sessionId` absent and a
succeeding session creation, the recording step appends exactly one new
session, titled from the message. -/
theorem finishChat_world_sessions_some (req : ChatRequest) (w : World)
    (rl : RateLimitResult) (registered : Bool) (qUsed : Nat) (u : User)
    (answer : String) (fc : Bool) (tk : Nat) (cache2 : Cache) (evs : List Event)
    (hsid : req.sessionId = none) (hcsf : w.createSessionFails = false) :
    (finishChat req w rl registered qUsed (some u) answer fc tk cache2 evs).world.sessions =
      w.sessions ++ [{ id := w.nextSessionId, userId := u.id,
                       title := createSessionTitle req.message }] := by
  have hw : (finishChat req w rl registered qUsed (some u) answer fc tk cache2 evs).world =
      (recordConversation { w with cache := cache2 } u.id req.sessionId
        req.message answer tk fc).1 := rfl
  rw [hw, hsid]
  simp only [recordConversation]
  rw [if_neg (by simp [hcsf])]
  simp only [appendMessages_sessions]

/-- Claim C4: when the conversation-recording step fails for a request with an
identified owner (session creation or either message append), the caller
still receives the normal HTTP 200 success response with the answer, the
(unchanged, registered) counter, unlimited remaining and the cached flag —
the failure never changes the request's outcome. -/
theorem claim4_recording_failure_swallowed (req : ChatRequest) (w : World)
    (u : User) (a : String) (fc : Bool) (tk : Nat)
    (hm : req.method = "POST") (hne : ¬ jsTrim req.message = "")
    (hrl : (limiterFor req w).success = true)
    (hkey : w.apiKeyPresent = true)
    (hreg : req.registeredCookie = some "1")
    (hcu : currentUserOf req w = some u)
    (hans : computeAnswer w req.message = some (a, fc, tk))
    (hfail : w.createSessionFails = true ∨ w.addUserMsgFails = true ∨
             w.addAssistantMsgFails = true) :
    (chatHandler req w).resp.status = 200 ∧
    (chatHandler req w).resp.success = some true ∧
    (chatHandler req w).resp.response = some a ∧
    (chatHandler req w).resp.cached = some fc ∧
    (chatHandler req w).resp.qUsed = some (req.qUsedCookie.getD 0) ∧
    (chatHandler req w).resp.remaining = some Remaining.unlimited := by
  rw [chatHandler_success_eq req w a fc tk hm hne hrl (Or.inl hreg) hkey hans]
  cases fc <;>
    simp [finishChat, addRateLimitHeaders, hreg]

/-- Witness for claim C4: a registered caller, a failing assistant-message
append, and a provider answer. -/
theorem claim4_recording_failure_swallowed_witness :
    let req : ChatRequest :=
      { method := "POST", message := "Bonjour", sessionId := none,
        qUsedCookie := some 0, registeredCookie := some "1",
        userEmailCookie := some "a@b.c" }
    let w : World :=
      { users := [("a@b.c", { id := 7 })], userLookupFails := false,
        rateAnon := { success := true, limit := 10, remaining := 9, reset := 111 },
        rateReg := { success := true, limit := 100, remaining := 99, reset := 222 },
        apiKeyPresent := true, cache := [],
        provider := { ok := true, status := 200, content := some "R", totalTokens := 5 },
        createSessionFails := false, addUserMsgFails := false,
        addAssistantMsgFails := true, nextSessionId := 0, responseTimeMs := 0,
        sessions := [], messages := [] }
    (chatHandler req w).resp.status = 200 ∧
    (chatHandler req w).resp.success = some true ∧
    (chatHandler req w).resp.response = some "R" ∧
    (chatHandler req w).resp.cached = some false ∧
    (chatHandler req w).resp.qUsed = some (0 : Nat) ∧
    (chatHandler req w).resp.remaining = some Remaining.unlimited :=
  claim4_recording_failure_swallowed _ _ { id := 7 } "R" false 5
    (by decide) (by decide) (by decide) (by decide) (by decide) (by decide)
    (by decide) (Or.inr (Or.inr (by decide)))

/-- Claim C10: a caller whose cookies assert `registered=1` with an email that
matches no stored user (or whose lookup fails) is still treated as
registered for quota purposes — the anonymous gate is skipped regardless of
`qUsed`, the counter is not advanced, no counter cookie is set, `remaining`
is unlimited — while no session or message is recorded because no owner was
resolved. -/
theorem claim10_phantom_registered (req : ChatRequest) (w : World)
    (em a : String) (fc : Bool) (tk : Nat)
    (hm : req.method = "POST") (hne : ¬ jsTrim req.message = "")
    (hreg : req.registeredCookie = some "1")
    (hmail : req.userEmailCookie = some em) (hem : ¬ em = "")
    (hlookup : w.userLookupFails = true ∨ findUserByEmail w.users em = none)
    (hrl : w.rateReg.success = true)
    (hkey : w.apiKeyPresent = true)
    (hans : computeAnswer w req.message = some (a, fc, tk)) :
    (chatHandler req w).resp.status = 200 ∧
    (chatHandler req w).resp.success = some true ∧
    (chatHandler req w).resp.needSignup = none ∧
    (chatHandler req w).resp.qUsed = some (req.qUsedCookie.getD 0) ∧
    (chatHandler req w).resp.remaining = some Remaining.unlimited ∧
    (chatHandler req w).resp.cookieQUsed = none ∧
    (chatHandler req w).world.sessions = w.sessions ∧
    (chatHandler req w).world.messages = w.messages := by
  have hcu : currentUserOf req w = none := by
    rcases hlookup with h | h
    · simp [currentUserOf, h]
    · cases hlf : w.userLookupFails
      · simp [currentUserOf, hmail, h, hlf]
      · simp [currentUserOf, hlf]
  have hrl' : (limiterFor req w).success = true := by
    simp [limiterFor, hreg, hrl]
  rw [chatHandler_success_eq req w a fc tk hm hne hrl' (Or.inl hreg) hkey hans]
  rw [hcu]
  cases fc <;>
    simp [finishChat, addRateLimitHeaders, hreg]

/-- Witness for claim C10: `registered=1` cookie, an email unknown to the user
store, `qUsed = 9` (over the anonymous limit), and a provider answer. -/
theorem claim10_phantom_registered_witness :
    let req : ChatRequest :=
      { method := "POST", message := "Bonjour", sessionId := none,
        qUsedCookie := some 9, registeredCookie := some "1",
        userEmailCookie := some "ghost@x.y" }
    let w : World :=
      { users := [("a@b.c", { id := 7 })], userLookupFails := false,
        rateAnon := { success := true, limit := 10, remaining := 9, reset := 111 },
        rateReg := { success := true, limit := 100, remaining := 99, reset := 222 },
        apiKeyPresent := true, cache := [],
        provider := { ok := true, status := 200, content := some "R", totalTokens := 5 },
        createSessionFails := false, addUserMsgFails := false,
        addAssistantMsgFails := false, nextSessionId := 0, responseTimeMs := 0,
        sessions := [], messages := [] }
    (chatHandler req w).resp.status = 200 ∧
    (chatHandler req w).resp.success = some true ∧
    (chatHandler req w).resp.needSignup = none ∧
    (chatHandler req w).resp.qUsed = some (9 : Nat) ∧
    (chatHandler req w).resp.remaining = some Remaining.unlimited ∧
    (chatHandler req w).resp.cookieQUsed = none ∧
    (chatHandler req w).world.sessions = w.sessions ∧
    (chatHandler req w).world.messages = w.messages :=
  claim10_phantom_registered _ _ "ghost@x.y" "R" false 5
    (by decide) (by decide) (by decide) (by decide) (by decide)
    (Or.inr (by decide)) (by decide) (by decide) (by decide)

/-- Truncation is idempotent: re-truncating an already ellipsis-truncated
title leaves it unchanged. -/
theorem createSessionTitle_trunc_fixed (s : String) (h : 50 ≤ s.length) :
    createSessionTitle (jsSubstringTo s 50 ++ "...") = jsSubstringTo s 50 ++ "..." := by
  obtain ⟨l⟩ := s
  have hl : 50 ≤ l.length := h
  have htake : (l.take 50).length = 50 := by
    rw [List.length_take]
    omega
  show createSessionTitle (String.mk (l.take 50) ++ String.mk ['.', '.', '.']) = _
  rw [string_mk_append]
  have hlen : 50 < (String.mk (l.take 50 ++ ['.', '.', '.'])).length := by
    rw [string_length_mk, List.length_append, htake]
    decide
  rw [createSessionTitle_of_lt _ hlen]
  have hdata : (l.take 50 ++ ['.', '.', '.']).take 50 = l.take 50 := by
    rw [List.take_append_eq_append_take, htake]
    simp [List.take_take]
  show String.mk ((l.take 50 ++ ['.', '.', '.']).take 50) ++ ("..." : String) =
    String.mk (l.take 50) ++ String.mk ['.', '.', '.']
  rw [hdata]

/-- Claim C8: a conversation recorded without a caller-supplied session
identifier gets a session titled by the 50-character truncation rule: in the
`saveAnonymous` branch the title is the full first user message when it has
at most 50 characters, its first 50 characters followed by an ellipsis when
longer, and the fixed fallback `"Conversation anonyme"` when no user message
seeds it (and the store's own truncation leaves that computed title
unchanged); in the chat endpoint the newly created session is titled by the
same truncation of the triggering message. -/
theorem claim8_session_titles (ms : List AnonMsg) (m : AnonMsg)
    (req : ChatRequest) (w : World) (u : User) (a : String) (fc : Bool) (tk : Nat)
    (hm : req.method = "POST") (hne : ¬ jsTrim req.message = "")
    (hrl : (limiterFor req w).success = true)
    (hkey : w.apiKeyPresent = true)
    (hreg : req.registeredCookie = some "1")
    (hcu : currentUserOf req w = some u)
    (hans : computeAnswer w req.message = some (a, fc, tk))
    (hsid : req.sessionId = none) (hcsf : w.createSessionFails = false) :
    (firstUserMessage ms = some m → m.content.length ≤ 50 →
        saveAnonymousTitle ms = m.content) ∧
    (firstUserMessage ms = some m → 50 < m.content.length →
        saveAnonymousTitle ms = jsSubstringTo m.content 50 ++ "...") ∧
    (firstUserMessage ms = none → saveAnonymousTitle ms = "Conversation anonyme") ∧
    createSessionTitle (saveAnonymousTitle ms) = saveAnonymousTitle ms ∧
    (chatHandler req w).world.sessions =
      w.sessions ++ [{ id := w.nextSessionId, userId := u.id,
                       title := createSessionTitle req.message }] ∧
    (req.message.length ≤ 50 → createSessionTitle req.message = req.message) ∧
    (50 < req.message.length →
        createSessionTitle req.message = jsSubstringTo req.message 50 ++ "...") := by
  refine ⟨?_, ?_, ?_, ?_, ?_, ?_, ?_⟩
  · intro hf hlen
    simp only [saveAnonymousTitle, hf]
    exact createSessionTitle_of_le m.content hlen
  · intro hf hlen
    simp only [saveAnonymousTitle, hf]
    exact createSessionTitle_of_lt m.content hlen
  · intro hf
    simp only [saveAnonymousTitle, hf]
  · cases hf : firstUserMessage ms with
    | none =>
        simp only [saveAnonymousTitle, hf]
        exact createSessionTitle_of_le _ (by decide)
    | some m' =>
        simp only [saveAnonymousTitle, hf]
        by_cases hlen : 50 < m'.content.length
        · have h1 : (jsSubstringTo m'.content 50 ++
              (if 50 < m'.content.length then "..." else "")) =
              jsSubstringTo m'.content 50 ++ "..." := by rw [if_pos hlen]
          rw [h1]
          exact createSessionTitle_trunc_fixed m'.content (Nat.le_of_lt hlen)
        · have hle : m'.content.length ≤ 50 := Nat.not_lt.mp hlen
          have h1 : (jsSubstringTo m'.content 50 ++
              (if 50 < m'.content.length then "..." else "")) = m'.content :=
            createSessionTitle_of_le m'.content hle
          rw [h1]
          exact createSessionTitle_of_le m'.content hle
  · rw [chatHandler_success_eq req w a fc tk hm hne hrl (Or.inl hreg) hkey hans, hcu]
    cases fc
    · rw [if_neg (by simp)]
      exact finishChat_world_sessions_some _ _ _ _ _ _ _ _ _ _ _ hsid hcsf
    · rw [if_pos rfl]
      exact finishChat_world_sessions_some _ _ _ _ _ _ _ _ _ _ _ hsid hcsf
  · intro hlen
    exact createSessionTitle_of_le req.message hlen
  · intro hlen
    exact createSessionTitle_of_lt req.message hlen

/-- Witness for claim C8: a one-message anonymous payload and a concrete chat
request from an identified owner with no session identifier. -/
theorem claim8_session_titles_witness :
    let ms : List AnonMsg := [{ role := "user", content := "Bonjour" }]
    let m : AnonMsg := { role := "user", content := "Bonjour" }
    let req : ChatRequest :=
      { method := "POST", message := "Bonjour", sessionId := none,
        qUsedCookie := some 0, registeredCookie := some "1",
        userEmailCookie := some "a@b.c" }
    let w : World :=
      { users := [("a@b.c", { id := 7 })], userLookupFails := false,
        rateAnon := { success := true, limit := 10, remaining := 9, reset := 111 },
        rateReg := { success := true, limit := 100, remaining := 99, reset := 222 },
        apiKeyPresent := true, cache := [],
        provider := { ok := true, status := 200, content := some "R", totalTokens := 5 },
        createSessionFails := false, addUserMsgFails := false,
        addAssistantMsgFails := false, nextSessionId := 3, responseTimeMs := 0,
        sessions := [], messages := [] }
    (firstUserMessage ms = some m → m.content.length ≤ 50 →
        saveAnonymousTitle ms = m.content) ∧
    (firstUserMessage ms = some m → 50 < m.content.length →
        saveAnonymousTitle ms = jsSubstringTo m.content 50 ++ "...") ∧
    (firstUserMessage ms = none → saveAnonymousTitle ms = "Conversation anonyme") ∧
    createSessionTitle (saveAnonymousTitle ms) = saveAnonymousTitle ms ∧
    (chatHandler req w).world.sessions =
      w.sessions ++ [{ id := w.nextSessionId, userId := 7,
                       title := createSessionTitle req.message }] ∧
    (req.message.length ≤ 50 → createSessionTitle req.message = req.message) ∧
    (50 < req.message.length →
        createSessionTitle req.message = jsSubstringTo req.message 50 ++ "...") :=
  claim8_session_titles _ _ _ _ { id := 7 } "R" false 5
    (by decide) (by decide) (by decide) (by decide) (by decide) (by decide)
    (by decide) (by decide) (by decide)

end SosChat
